import Mathlib

/-!
Shallow embedding of the session core of the spacevibe-frontend repository:
the `AuthProvider` / `useAuth` pair (src/context/AuthContext.tsx), the
`ProtectedRoute` component (src/components/ProtectedRoute.tsx), and the
dashboard's `handleDeleteHouse` handler (src/pages/DashboardPage.tsx).

The durable store (`localStorage`) is modelled by the two keys the code
touches; `none` models an absent entry.  JavaScript truthiness of a
`string | null` (`if (token)`) treats both `null` and the empty string as
falsy, and the embedding mirrors that.  React state updates
(`setIsAuthenticated`, `setLoading`, `setHouses`) become functional updates
of an explicit state record.
-/

/-- Durable key-value storage restricted to the two keys the code uses
(`accessToken`, `refreshToken`).  `none` models an absent entry; `some s`
a present entry with string value `s` (possibly empty). -/
structure Storage where
  accessToken : Option String
  refreshToken : Option String
deriving DecidableEq, Repr

/-- The observable state of the session core: the `AuthProvider`'s two
`useState` booleans (`isAuthenticated`, `loading`) together with the durable
storage they mirror. -/
structure SessionStore where
  storage : Storage
  isAuthenticated : Bool
  loading : Bool
deriving DecidableEq, Repr

/-- JavaScript truthiness of a `string | null` value: `null` and `""` are
falsy, every non-empty string is truthy.  This is the semantics of the
source's `if (token)` test. -/
def jsTruthy : Option String → Bool
  | none => false
  | some s => s != ""

/-- The provider state at mount: `useState(false)` for `isAuthenticated`,
`useState(true)` for `loading`, over the given pre-existing storage. -/
def initialStore (st : Storage) : SessionStore :=
  { storage := st, isAuthenticated := false, loading := true }

/-- The mount-time `useEffect` of `AuthProvider`:
`const token = localStorage.getItem('accessToken');`
`if (token) { setIsAuthenticated(true); } setLoading(false);`
Storage is only read, never written. -/
def initSession (s : SessionStore) : SessionStore :=
  { s with
    isAuthenticated := if jsTruthy s.storage.accessToken then true else s.isAuthenticated,
    loading := false }

/-- The provider's `login`: `localStorage.setItem('accessToken', tokens.access);`
`localStorage.setItem('refreshToken', tokens.refresh); setIsAuthenticated(true);` -/
def login (s : SessionStore) (access refresh : String) : SessionStore :=
  { s with
    storage := { accessToken := some access, refreshToken := some refresh },
    isAuthenticated := true }

/-- The provider's `logout`: `localStorage.removeItem('accessToken');`
`localStorage.removeItem('refreshToken'); setIsAuthenticated(false);` -/
def logout (s : SessionStore) : SessionStore :=
  { s with
    storage := { accessToken := none, refreshToken := none },
    isAuthenticated := false }

/-- The provider's `getAccessToken`: `() => localStorage.getItem('accessToken')`.
It reads the storage entry directly; the in-memory flags play no part. -/
def getAccessToken (s : SessionStore) : Option String :=
  s.storage.accessToken

/-- `getAccessToken` as a state-threading call: the source arrow function
contains only a `getItem`, so the state component is returned unchanged. -/
def getAccessTokenCall (s : SessionStore) : Option String × SessionStore :=
  (s.storage.accessToken, s)

/-- One externally triggered mutation of the session store: a `login` call
with a concrete token pair, or a `logout` call. -/
inductive Call where
  | login (access refresh : String)
  | logout
deriving DecidableEq, Repr

/-- Apply one call to the store. -/
def applyCall (s : SessionStore) : Call → SessionStore
  | .login a r => login s a r
  | .logout => logout s

/-- Apply a sequence of calls left to right (the single-threaded event order). -/
def applyCalls (s : SessionStore) (cs : List Call) : SessionStore :=
  cs.foldl applyCall s

/-- Whether a call is a login. -/
def isLogin : Call → Bool
  | .login _ _ => true
  | .logout => false

/-- Durable storage matches the in-memory state: when authenticated both
entries are present, when unauthenticated both are absent. -/
def storageMatches (s : SessionStore) : Prop :=
  (s.isAuthenticated = true →
    s.storage.accessToken.isSome = true ∧ s.storage.refreshToken.isSome = true) ∧
  (s.isAuthenticated = false →
    s.storage.accessToken = none ∧ s.storage.refreshToken = none)

/-- Rendered output, restricted to the node shapes `ProtectedRoute` produces:
a text node, a `div` wrapper, a `<Navigate to replace>` redirect element, and
the fragment `<>{children}</>` (a transparent wrapper around its child). -/
inductive ReactNode where
  | text (s : String)
  | div (child : ReactNode)
  | navigate (toPath : String) (replaceHistory : Bool)
  | fragment (child : ReactNode)
deriving DecidableEq, Repr

/-- `ProtectedRoute` (src/components/ProtectedRoute.tsx) as a function of the
`(loading, isAuthenticated)` pair read from `useAuth()` and the supplied
`children`:
`if (loading) return <div>Loading...</div>;`
`if (!isAuthenticated) return <Navigate to="/login" replace />;`
`return <>{children}</>;` -/
def ProtectedRoute (loading isAuthenticated : Bool) (children : ReactNode) : ReactNode :=
  if loading then ReactNode.div (ReactNode.text "Loading...")
  else if !isAuthenticated then ReactNode.navigate "/login" true
  else ReactNode.fragment children

/-- `ProtectedRoute` as a component over the full session store: the source
contains no setter call and no storage access, so evaluating it threads the
store through unchanged. -/
def ProtectedRouteComponent (s : SessionStore) (children : ReactNode) :
    ReactNode × SessionStore :=
  (ProtectedRoute s.loading s.isAuthenticated children, s)

/-- The value published through `AuthContext.Provider` (the function members
of the context object are modelled separately as `login`, `logout`,
`getAccessToken` above). -/
structure AuthContextValue where
  isAuthenticated : Bool
  loading : Bool
deriving DecidableEq, Repr

/-- `useAuth` (src/context/AuthContext.tsx): `useContext` yields the provider
value or `null`; on `null` (`if (!context)`) it throws
`'useAuth must be used within an AuthProvider'`, otherwise it returns the
context value. -/
def useAuth (ctx : Option AuthContextValue) : Except String AuthContextValue :=
  match ctx with
  | none => Except.error "useAuth must be used within an AuthProvider"
  | some c => Except.ok c

/-- A house record of the dashboard (the `HouseForm` shape: the zod schema
fields plus `id`). -/
structure House where
  name : String
  width : Int
  length : Int
  height : Int
  floors : Int
  id : Int
deriving DecidableEq, Repr

/-- `handleDeleteHouse` (src/pages/DashboardPage.tsx): if `window.confirm`
is declined the handler returns early; otherwise `api.delete` either
succeeds, in which case
`setHouses(houses.filter((house) => house.id !== id))` runs, or throws, in
which case the `catch` branch leaves the list untouched.  `confirmed` is
the confirm-dialog outcome and `apiOk` the delete-request outcome. -/
def handleDeleteHouse (confirmed apiOk : Bool) (houses : List House) (id : Int) :
    List House :=
  if !confirmed then houses
  else if apiOk then houses.filter (fun house => house.id != id)
  else houses

/-- Claim C1: `ProtectedRoute`'s output is a deterministic pure function of
the `(loading, isAuthenticated)` pair (it is a Lean function of exactly that
pair and the supplied view): when `loading` it renders only the transitional
placeholder (a `div`, not a `navigate`, so no redirect is issued); when
resolved and unauthenticated it redirects to the login entry point; when
resolved and authenticated it passes the supplied view through unchanged
inside the transparent fragment. -/
theorem c1_routeGuard_cases (a : Bool) (c : ReactNode) :
    ProtectedRoute true a c = ReactNode.div (ReactNode.text "Loading...") ∧
    ProtectedRoute false false c = ReactNode.navigate "/login" true ∧
    ProtectedRoute false true c = ReactNode.fragment c :=
  ⟨rfl, rfl, rfl⟩

/-- Claim C2: for every starting store (in particular every resolved one) and
every nonempty call sequence, written as `cs ++ [c]`, the final
`isAuthenticated` is `true` iff the last call `c` is a login, and the state
after the sequence satisfies the storage-sync invariant.  Since the sequence
is universally quantified, instantiating it at each nonempty prefix of a
longer sequence shows the invariant holds after every individual call. -/
theorem c2_lastCallWins_storageSync (s : SessionStore) (cs : List Call) (c : Call) :
    (applyCalls s (cs ++ [c])).isAuthenticated = isLogin c ∧
    storageMatches (applyCalls s (cs ++ [c])) := by
  have h : applyCalls s (cs ++ [c]) = applyCall (applyCalls s cs) c := by
    simp [applyCalls, List.foldl_append]
  rw [h]
  cases c with
  | login a r =>
      exact ⟨rfl, by simp [applyCall, login, storageMatches]⟩
  | logout =>
      exact ⟨rfl, by simp [applyCall, logout, storageMatches]⟩

/-- Witness for C2 at a concrete resolved store and the sequence
`[logout, login "a" "r"]`. -/
theorem c2_lastCallWins_storageSync_witness :
    (applyCalls (initialStore (Storage.mk none none))
      ([Call.logout] ++ [Call.login "a" "r"])).isAuthenticated =
      isLogin (Call.login "a" "r") :=
  (c2_lastCallWins_storageSync (initialStore (Storage.mk none none))
    [Call.logout] (Call.login "a" "r")).1

/-- Counterexample to Claim C3 as stated: with a present but empty
`accessToken` entry (`localStorage` can hold `""`), the entry is present yet
the mount effect's `if (token)` test is falsy, so the state stays
unauthenticated instead of transitioning to `Authenticated`. -/
theorem c3_initSession_counterexample :
    (Storage.mk (some "") none).accessToken.isSome = true ∧
    (initSession (initialStore (Storage.mk (some "") none))).isAuthenticated = false := by
  decide

/-- Claim C3, amended: the mount effect transitions to authenticated exactly
when the access-token entry is present AND non-empty (JS truthiness);
otherwise `isAuthenticated` keeps its startup value `false`, i.e. stays
unauthenticated.  In every case the resolved flag flips: `loading` is `true`
before and `false` after. -/
theorem c3_initSession_amended (st : Storage) :
    (initialStore st).loading = true ∧
    (initSession (initialStore st)).loading = false ∧
    (initSession (initialStore st)).isAuthenticated = jsTruthy st.accessToken := by
  refine ⟨rfl, rfl, ?_⟩
  cases h : jsTruthy st.accessToken <;> simp [initSession, initialStore, h]

/-- Counterexample to Claim C4 as stated: at the startup state with a
recovered token pair in storage (the ordinary reload scenario, before the
mount effect runs), the state is not `Authenticated`
(`isAuthenticated = false`), yet `getAccessToken` returns the stored token
rather than the sentinel `none`, because the source reads
`localStorage.getItem('accessToken')` directly. -/
theorem c4_getAccessToken_counterexample :
    (initialStore (Storage.mk (some "abc") (some "xyz"))).isAuthenticated = false ∧
    getAccessToken (initialStore (Storage.mk (some "abc") (some "xyz"))) = some "abc" ∧
    (getAccessToken (initialStore (Storage.mk (some "abc") (some "xyz")))).isSome = true := by
  decide

/-- Claim C4, amended: `getAccessToken` returns the durable-storage access
entry regardless of the in-memory authentication state (the stored token when
the entry is present, `none` when absent), and never mutates state or
storage; in particular, after the mount effect with storage containing
`accessToken = "abc"` it returns `"abc"` and the state is authenticated. -/
theorem c4_getAccessToken_amended (s : SessionStore) :
    getAccessToken s = s.storage.accessToken ∧
    getAccessTokenCall s = (s.storage.accessToken, s) ∧
    getAccessToken (initSession (initialStore (Storage.mk (some "abc") (some "xyz")))) =
      some "abc" ∧
    (initSession (initialStore (Storage.mk (some "abc") (some "xyz")))).isAuthenticated =
      true := by
  refine ⟨rfl, rfl, rfl, by decide⟩

/-- Counterexample to Claim C5 as stated: at a resolved state that is already
unauthenticated but whose storage still holds an (empty-string) access entry
— reachable by reloading after a `login` with an empty access token, since
the mount effect treats `""` as falsy — `logout` is not a no-op: the access
entry is `some ""` before the call and `none` after, so the storage does not
equal its prior content. -/
theorem c5_logout_counterexample :
    (SessionStore.mk (Storage.mk (some "") none) false false).isAuthenticated = false ∧
    (SessionStore.mk (Storage.mk (some "") none) false false).storage.accessToken =
      some "" ∧
    (logout (SessionStore.mk (Storage.mk (some "") none) false false)).storage.accessToken =
      none ∧
    decide (logout (SessionStore.mk (Storage.mk (some "") none) false false) =
      SessionStore.mk (Storage.mk (some "") none) false false) = false := by
  decide

/-- Claim C5, amended: `logout` has no precondition — from every state it
removes both token entries and sets the state to unauthenticated; it is
idempotent (`logout ∘ logout = logout`), and calling it when the state is
already unauthenticated AND storage holds neither entry (the only
unauthenticated shape the write-through discipline itself produces) is an
effect-wise no-op; and after `login` with `("a1","r1")` immediately followed
by `logout`, storage contains neither entry and `isAuthenticated` is false. -/
theorem c5_logout_amended (s : SessionStore) (l : Bool) :
    (logout s).storage.accessToken = none ∧
    (logout s).storage.refreshToken = none ∧
    (logout s).isAuthenticated = false ∧
    logout (logout s) = logout s ∧
    logout (SessionStore.mk (Storage.mk none none) false l) =
      SessionStore.mk (Storage.mk none none) false l ∧
    (login s "a1" "r1").storage.accessToken = some "a1" ∧
    (login s "a1" "r1").storage.refreshToken = some "r1" ∧
    (login s "a1" "r1").isAuthenticated = true ∧
    (logout (login s "a1" "r1")).storage.accessToken = none ∧
    (logout (login s "a1" "r1")).storage.refreshToken = none ∧
    (logout (login s "a1" "r1")).isAuthenticated = false :=
  ⟨rfl, rfl, rfl, rfl, rfl, rfl, rfl, rfl, rfl, rfl, rfl⟩

/-- Claim C6: the mount effect is idempotent — running it twice from any
state (in particular for every storage content, with no intervening storage
mutation: the effect never writes storage) yields exactly the state that one
run yields, in all three observables (`isAuthenticated`, `loading`,
storage). -/
theorem c6_initSession_idempotent (s : SessionStore) :
    initSession (initSession s) = initSession s := by
  cases h : jsTruthy s.storage.accessToken <;> simp [initSession, h]

/-- Claim C7: whenever `ProtectedRoute` produces a redirect, that redirect
carries the history-replacing flag (the source renders
`<Navigate to="/login" replace />`), so back-navigation does not return to
the blocked protected view. -/
theorem c7_redirect_replaces (l a : Bool) (c : ReactNode) (p : String) (rep : Bool)
    (h : ProtectedRoute l a c = ReactNode.navigate p rep) : rep = true := by
  cases l <;> cases a <;> simp_all [ProtectedRoute]

/-- Witness for C7: the unauthenticated resolved case concretely produces a
replacing redirect. -/
theorem c7_redirect_replaces_witness :
    ProtectedRoute false false (ReactNode.text "dashboard") =
      ReactNode.navigate "/login" true ∧ true = true :=
  ⟨rfl, c7_redirect_replaces false false (ReactNode.text "dashboard") "/login" true rfl⟩

/-- Claim C8: `ProtectedRoute` never mutates the session store — its source
contains no call to `login`/`logout`/the mount effect and no storage write,
so evaluated as a component over the full store it returns the store
unchanged, and its rendered output is exactly the pure decision function of
the `(loading, isAuthenticated)` pair. -/
theorem c8_routeGuard_frame (s : SessionStore) (c : ReactNode) :
    (ProtectedRouteComponent s c).2 = s ∧
    (ProtectedRouteComponent s c).1 = ProtectedRoute s.loading s.isAuthenticated c :=
  ⟨rfl, rfl⟩

/-- Claim C9: `useAuth` with no provider context present (`null`) raises the
error `'useAuth must be used within an AuthProvider'` rather than returning a
value; with the provider present it returns the context value unchanged and
without error. -/
theorem c9_useAuth_guard (v : AuthContextValue) :
    useAuth none = Except.error "useAuth must be used within an AuthProvider" ∧
    useAuth (some v) = Except.ok v :=
  ⟨rfl, rfl⟩

/-- Claim C10: on a confirmed, successful delete of house `delId`, the
resulting list is the prior list filtered of exactly the entries with that
id: it is a sublist of the prior list (so every surviving entry keeps all its
fields and the relative order is preserved), it contains no entry with the
deleted id, and it retains every entry whose id differs; on a failed delete
the list is unchanged. -/
theorem c10_deleteHouse (houses : List House) (delId : Int) :
    handleDeleteHouse true true houses delId =
      houses.filter (fun house => house.id != delId) ∧
    (handleDeleteHouse true true houses delId).Sublist houses ∧
    (∀ h ∈ handleDeleteHouse true true houses delId, h.id ≠ delId) ∧
    (∀ h ∈ houses, h.id ≠ delId → h ∈ handleDeleteHouse true true houses delId) ∧
    handleDeleteHouse true false houses delId = houses := by
  refine ⟨rfl, ?_, ?_, ?_, rfl⟩
  · have hre : handleDeleteHouse true true houses delId =
        houses.filter (fun house => house.id != delId) := rfl
    rw [hre]
    exact List.filter_sublist houses
  · intro h hmem
    simp [handleDeleteHouse, List.mem_filter] at hmem
    exact hmem.2
  · intro h hmem hne
    simp [handleDeleteHouse, List.mem_filter]
    exact ⟨hmem, hne⟩

/-- Witness for C10: deleting id 7 from a concrete two-house list keeps the
other house, by applying the retention conjunct at that house. -/
theorem c10_deleteHouse_witness :
    House.mk "b" 1 1 1 1 3 ∈
      handleDeleteHouse true true
        [House.mk "a" 2 2 2 1 7, House.mk "b" 1 1 1 1 3] 7 :=
  (c10_deleteHouse [House.mk "a" 2 2 2 1 7, House.mk "b" 1 1 1 1 3] 7).2.2.2.1
    (House.mk "b" 1 1 1 1 3) (by decide) (by decide)
